import Mathlib

/-!
Shallow embedding of the vidshort core logic:

* the connection cache `connectToDatabase` (src/lib/db.ts), modelled as a
  state machine over a cache entry `(conn, promise)` plus a counter of
  physical connection attempts started;
* the credential verifier `authorize` (src/lib/auth.ts);
* the user model with its `pre("save")` password-hashing hook
  (src/models/User.ts) and an explicit user store;
* the registration route handler `POST`;
* the middleware `authorized` callback and the route `matcher` of its config.

The external bcrypt library is modelled by an injective, executable salted
hash: only its contract (compare succeeds exactly on the hashed plaintext,
and the hash string never equals the plaintext) is relied upon.
-/

/-- The bcrypt format header `$2b$10$` (cost factor 10, as in the code),
as a character list. -/
def bcryptHead : List Char := ['$', '2', 'b', '$', '1', '0', '$']

/-- Model of `bcrypt.hash(plain, 10)`. The salt drawn by the library is an
arbitrary natural, rendered as `salt` copies of `A`; the digest is kept
injective by carrying the plaintext after a separator. Only the contract
matters: `bcryptCompare` recognises exactly this string, and it never
equals `plain`. -/
def bcryptHash (salt : Nat) (plain : String) : String :=
  ⟨bcryptHead ++ List.replicate salt 'A' ++ '$' :: plain.data⟩

/-- The salt field read back out of a stored bcrypt string: the characters
after the 7-character header, up to the next separator. -/
def saltOf (h : String) : List Char :=
  (h.data.drop 7).takeWhile (fun c => !(c == '$'))

/-- Model of `bcrypt.compare(plain, h)`: succeeds exactly when `h` is the
bcrypt hash of `plain` under the salt recorded inside `h`. -/
def bcryptCompare (plain h : String) : Bool :=
  h == ⟨bcryptHead ++ saltOf h ++ '$' :: plain.data⟩

theorem saltOf_bcryptHash (salt : Nat) (p : String) :
    saltOf (bcryptHash salt p) = List.replicate salt 'A' := by
  show ((bcryptHead ++ (List.replicate salt 'A' ++ '$' :: p.data)).drop
      7).takeWhile (fun c => !(c == '$')) = List.replicate salt 'A'
  rw [show (7 : Nat) = bcryptHead.length from rfl, List.drop_left]
  induction salt with
  | zero => rfl
  | succ n ih => simp [List.replicate_succ, ih]

theorem bcryptCompare_hash (salt : Nat) (p : String) :
    bcryptCompare p (bcryptHash salt p) = true := by
  unfold bcryptCompare
  rw [saltOf_bcryptHash]
  exact beq_self_eq_true _

theorem bcryptCompare_sound (salt : Nat) (p q : String)
    (h : bcryptCompare q (bcryptHash salt p) = true) : q = p := by
  unfold bcryptCompare at h
  rw [saltOf_bcryptHash] at h
  have h2 := congrArg String.data (eq_of_beq h)
  have h3 : bcryptHead ++ (List.replicate salt 'A' ++ '$' :: p.data) =
      bcryptHead ++ (List.replicate salt 'A' ++ '$' :: q.data) := by
    simpa [bcryptHash] using h2
  have h4 := List.append_cancel_left h3
  have h5 := List.append_cancel_left h4
  injection h5 with h6 h7
  exact (congrArg String.mk h7).symm

theorem bcryptCompare_wrong (salt : Nat) (p q : String) (hne : ¬ (q = p)) :
    bcryptCompare q (bcryptHash salt p) = false := by
  cases hcmp : bcryptCompare q (bcryptHash salt p) with
  | false => rfl
  | true => exact absurd (bcryptCompare_sound salt p q hcmp) hne

theorem bcryptHash_ne (salt : Nat) (p : String) : ¬ (bcryptHash salt p = p) := by
  intro h
  have hlen : (bcryptHash salt p).data.length = p.data.length := by rw [h]
  have hsum : (bcryptHead ++ List.replicate salt 'A' ++ '$' :: p.data).length =
      p.data.length := hlen
  have hhead : bcryptHead.length = 7 := rfl
  simp [List.length_append] at hsum
  omega

/-! ## User store and model (src/models/User.ts) -/

/-- A persisted user record: the fields of the user schema that the claims
touch (`_id`, `email`, `password`; timestamps are irrelevant here). -/
structure UserRec where
  _id : Nat
  email : String
  password : String
deriving DecidableEq, Repr

/-- The user collection together with the id generator for fresh records. -/
structure Store where
  users : List UserRec
  nextId : Nat
deriving DecidableEq, Repr

/-- `User.findOne({ email })`: the first stored record whose email matches
exactly. -/
def findOne (st : Store) (email : String) : Option UserRec :=
  st.users.find? (fun u => u.email == email)

/-- The `userSchema.pre("save")` hook: rewrite the password field to its
bcrypt hash, but only when that field was modified in this write
(`this.isModified("password")`). -/
def preSaveHook (salt : Nat) (passwordModified : Bool) (r : UserRec) : UserRec :=
  if passwordModified then { r with password := bcryptHash salt r.password } else r

/-- `User.create({ email, password })`: a new document whose password field
is freshly set (hence modified) runs the pre-save hook and is appended to
the collection. -/
def createUser (salt : Nat) (st : Store) (email pw : String) : Store :=
  { users := st.users ++
      [preSaveHook salt true { _id := st.nextId, email := email, password := pw }],
    nextId := st.nextId + 1 }

/-! ## Credential verifier (src/lib/auth.ts) -/

/-- JS falsiness of an optional string field (`!x`): absent or empty. -/
def falsyField : Option String → Bool
  | none => true
  | some s => s == ""

/-- The credentials object handed to `authorize`; each field may be absent. -/
structure Creds where
  email : Option String
  password : Option String

/-- The identity returned on success: exactly the record id and email.
The type has no password field — `authorize` builds it from
`user._id` and `user.email` only. -/
structure Identity where
  id : Nat
  email : String
deriving DecidableEq, Repr

/-- The body of the `try` block in `authorize`: connect to the database
(`dbOk` says whether that throws), look the user up by email, compare the
password against the stored hash. Each failure keeps its internal message;
the catch of the caller rewrites them. -/
def authorizeTry (dbOk : Bool) (st : Store) (email password : String) :
    Except String Identity :=
  if !dbOk then
    Except.error "❌ Database connection failed."
  else
    match findOne st email with
    | none => Except.error "User not found"
    | some user =>
      if bcryptCompare password user.password then
        Except.ok { id := user._id, email := user.email }
      else
        Except.error "Invalid password"

/-- `authorize(credentials)` from the credentials provider: the
missing-credentials check sits before the `try` block, so its error is
thrown as is; every error raised inside the `try` is replaced by the
generic `"Failed to log in"`. -/
def authorize (dbOk : Bool) (st : Store) (credentials : Option Creds) :
    Except String Identity :=
  if falsyField (credentials.bind Creds.email) ||
      falsyField (credentials.bind Creds.password) then
    Except.error "Missing email or password"
  else
    match authorizeTry dbOk st ((credentials.bind Creds.email).getD "")
        ((credentials.bind Creds.password).getD "") with
    | Except.ok u => Except.ok u
    | Except.error _ => Except.error "Failed to log in"

/-! ## Registration route handler -/

/-- A JSON response body: either an `error` field or a `message` field. -/
inductive Body where
  | errB : String → Body
  | msgB : String → Body
deriving DecidableEq, Repr

/-- An HTTP response: status code and JSON body. -/
structure Resp where
  status : Nat
  body : Body
deriving DecidableEq, Repr

/-- The parsed request body of the registration endpoint. -/
structure RegReq where
  email : Option String
  password : Option String

/-- The registration `POST` handler: validate presence, connect (`dbOk`
says whether that throws, caught as a 500), reject an existing email with
400, otherwise create the user — which hashes the fresh password with the
salt bcrypt draws — and answer 201. -/
def POST (salt : Nat) (dbOk : Bool) (st : Store) (req : RegReq) : Store × Resp :=
  if falsyField req.email || falsyField req.password then
    (st, { status := 400, body := Body.errB "Email and password are required" })
  else if !dbOk then
    (st, { status := 500, body := Body.errB "Failed to register user" })
  else
    match findOne st (req.email.getD "") with
    | some _ => (st, { status := 400, body := Body.errB "Email already exists" })
    | none =>
      (createUser salt st (req.email.getD "") (req.password.getD ""),
       { status := 201, body := Body.msgB "User registered successfully" })

/-! ## Connection cache (src/lib/db.ts) -/

/-- The cache entry `{ conn, promise }`: an established connection handle
and/or a pending attempt, identified by its attempt id. -/
structure Cache where
  conn : Option Nat
  promise : Option Nat
deriving DecidableEq, Repr

/-- The cache together with a counter of physical connection attempts
started so far (each `mongoose.connect` call bumps it); the counter value
at creation time is the attempt's id. -/
structure DbState where
  cache : Cache
  started : Nat
deriving DecidableEq, Repr

/-- What a caller of `connectToDatabase` holds after the synchronous head
of the function: either the already-cached connection, or the attempt it
will await. -/
inductive BeginResult where
  | cachedConn : Nat → BeginResult
  | awaiting : Nat → BeginResult
deriving DecidableEq, Repr

/-- The synchronous head of `connectToDatabase`: return `cached.conn` if
set; otherwise store a fresh attempt in `cached.promise` if none is
pending; in both remaining cases the caller awaits `cached.promise`. -/
def connectBegin (s : DbState) : DbState × BeginResult :=
  match s.cache.conn with
  | some h => (s, BeginResult.cachedConn h)
  | none =>
    match s.cache.promise with
    | some a => (s, BeginResult.awaiting a)
    | none =>
      ({ cache := { conn := s.cache.conn, promise := some s.started },
         started := s.started + 1 },
       BeginResult.awaiting s.started)

/-- `n` callers run the synchronous head back to back (the cooperative
scheduler interleaves only at `await` points), before any attempt has
resolved. -/
def beginMany : Nat → DbState → DbState × List BeginResult
  | 0, s => (s, [])
  | n + 1, s =>
    let p := connectBegin s
    let q := beginMany n p.1
    (q.1, p.2 :: q.2)

/-- The `try`/`catch` around `await cached.promise`: on resolution `res` of
the shared attempt, a waking caller either stores and returns the handle,
or clears `cached.promise` and throws the generic connection error. -/
def connectFinish (s : DbState) (res : Except Unit Nat) :
    DbState × Except String Nat :=
  match res with
  | Except.ok h =>
      ({ s with cache := { conn := some h, promise := s.cache.promise } },
       Except.ok h)
  | Except.error _ =>
      ({ s with cache := { conn := s.cache.conn, promise := none } },
       Except.error "❌ Database connection failed.")

/-! ## Middleware (next-auth.d.ts part: middleware.ts) -/

/-- JS `s.startsWith(p)`. -/
def jsStartsWith (s p : String) : Bool := p.data.isPrefixOf s.data

/-- JS `s.endsWith(p)`. -/
def jsEndsWith (s p : String) : Bool := p.data.isSuffixOf s.data

/-- The `authorized` callback of the middleware: auth-related routes and
login/registration pages first, then the public routes, then the token
requirement (`!!token`). -/
def authorized (pathname : String) (token : Option String) : Bool :=
  if jsStartsWith pathname "/api/auth" || jsStartsWith pathname "/login" ||
      jsStartsWith pathname "/register" then
    true
  else if pathname == "/" || jsStartsWith pathname "/api/videos" then
    true
  else
    token.isSome

/-- The roots excluded by the negative lookahead of the matcher pattern. -/
def excludedRoots : List String := ["api", "_next/static", "_next/image", "favicon.ico"]

/-- The characters of a path after its leading slash. -/
def strTail (s : String) : String := ⟨s.data.drop 1⟩

/-- The route matcher `"/((?!api|_next/static|_next/image|favicon.ico).*) "`
of the middleware config: a leading slash, a rest that does not start with
any excluded root and — exactly as the pattern is written — a mandatory
trailing space character. -/
def matcherSelects (p : String) : Bool :=
  jsStartsWith p "/" &&
  excludedRoots.all (fun e => !(jsStartsWith (strTail p) e)) &&
  jsEndsWith p " "

/-! ## Helper lemmas and concrete instances -/

instance : DecidableEq (Except String Identity) := fun a b =>
  match a, b with
  | Except.ok x, Except.ok y =>
    if h : x = y then isTrue (by rw [h])
    else isFalse (fun hc => h (Except.ok.inj hc))
  | Except.error x, Except.error y =>
    if h : x = y then isTrue (by rw [h])
    else isFalse (fun hc => h (Except.error.inj hc))
  | Except.ok x, Except.error y => isFalse (fun hc => Except.noConfusion hc)
  | Except.error x, Except.ok y => isFalse (fun hc => Except.noConfusion hc)

/-- Once an attempt is pending and no connection is cached, further callers
leave the state untouched and all await that same attempt. -/
theorem beginMany_pending (m : Nat) (t : DbState) (a : Nat)
    (hconn : t.cache.conn = none) (hprom : t.cache.promise = some a) :
    beginMany m t = (t, List.replicate m (BeginResult.awaiting a)) := by
  induction m with
  | zero => rfl
  | succ k ih =>
    have hstep : connectBegin t = (t, BeginResult.awaiting a) := by
      unfold connectBegin
      rw [hconn, hprom]
    simp [beginMany, hstep, ih, List.replicate_succ]

/-- A store with one user whose password is the hash of `secret`, used to
instantiate the hypothesis-bearing theorems. -/
def demoStore : Store :=
  { users := [{ _id := 1, email := "a@b.c", password := bcryptHash 3 "secret" }],
    nextId := 2 }

/-! ## Claims -/

/-- C1: single-flight connection acquisition — for any number of callers
that run the head of `connectToDatabase` before any attempt has resolved,
starting from a fresh cache entry, exactly one physical connection attempt
is started, every caller awaits that same stored attempt, and on the shared
resolution every caller receives the same handle on success, or the same
generic connection-failure error on failure. -/
theorem C1_single_flight (n : Nat) (s : DbState)
    (hconn : s.cache.conn = none) (hprom : s.cache.promise = none) :
    (beginMany (n + 1) s).1.started = s.started + 1 ∧
    (beginMany (n + 1) s).2 = List.replicate (n + 1) (BeginResult.awaiting s.started) ∧
    (∀ (t : DbState) (h : Nat), (connectFinish t (Except.ok h)).2 = Except.ok h) ∧
    (∀ (t : DbState) (e : Unit),
      (connectFinish t (Except.error e)).2 =
        Except.error "❌ Database connection failed.") := by
  have hstep : connectBegin s =
      ({ cache := { conn := s.cache.conn, promise := some s.started },
         started := s.started + 1 }, BeginResult.awaiting s.started) := by
    unfold connectBegin
    rw [hconn, hprom]
  have hrest := beginMany_pending n
    { cache := { conn := s.cache.conn, promise := some s.started },
      started := s.started + 1 } s.started hconn rfl
  refine ⟨?_, ?_, fun _ _ => rfl, fun _ _ => rfl⟩
  · simp [beginMany, hstep, hrest]
  · simp [beginMany, hstep, hrest, List.replicate_succ]

theorem C1_single_flight_witness :
    (beginMany 3 { cache := { conn := none, promise := none }, started := 0 }).1.started = 1 ∧
    (beginMany 3 { cache := { conn := none, promise := none }, started := 0 }).2 =
      List.replicate 3 (BeginResult.awaiting 0) ∧
    (connectFinish { cache := { conn := none, promise := none }, started := 0 }
        (Except.ok 5)).2 = Except.ok 5 := by
  obtain ⟨h1, h2, h3, h4⟩ :=
    C1_single_flight 2 { cache := { conn := none, promise := none }, started := 0 } rfl rfl
  exact ⟨h1, h2, h3 { cache := { conn := none, promise := none }, started := 0 } 5⟩

/-- C5: a failed connection attempt does not poison the cache — finishing
with a failed attempt clears the stored pending attempt, leaves the cached
handle field as it was, surfaces the generic connection-failure error, and
the next call (when no handle is cached, which is the only possibility in
the same entry) starts a genuinely fresh attempt instead of re-awaiting the
failed one. -/
theorem C5_failure_clears_attempt (s : DbState) :
    (connectFinish s (Except.error ())).1.cache.promise = none ∧
    (connectFinish s (Except.error ())).1.cache.conn = s.cache.conn ∧
    (connectFinish s (Except.error ())).2 =
      Except.error "❌ Database connection failed." ∧
    (s.cache.conn = none →
      (connectBegin (connectFinish s (Except.error ())).1).2 =
        BeginResult.awaiting s.started ∧
      (connectBegin (connectFinish s (Except.error ())).1).1.started =
        s.started + 1) := by
  refine ⟨rfl, rfl, rfl, fun hconn => ?_⟩
  constructor
  · show (connectBegin
      { s with cache := { conn := s.cache.conn, promise := none } }).2 = _
    unfold connectBegin
    rw [hconn]
  · show (connectBegin
      { s with cache := { conn := s.cache.conn, promise := none } }).1.started = _
    unfold connectBegin
    rw [hconn]

theorem C5_failure_clears_attempt_witness :
    (connectFinish { cache := { conn := none, promise := some 0 }, started := 1 }
        (Except.error ())).1.cache.promise = none ∧
    (connectBegin (connectFinish
        { cache := { conn := none, promise := some 0 }, started := 1 }
        (Except.error ())).1).2 = BeginResult.awaiting 1 := by
  obtain ⟨h1, h2, h3, h4⟩ :=
    C5_failure_clears_attempt { cache := { conn := none, promise := some 0 }, started := 1 }
  exact ⟨h1, (h4 rfl).1⟩

/-- C6: no re-hashing of unmodified passwords — the pre-save hook leaves a
record whose password field was not modified in this write entirely
unchanged, and rewrites the password to its hash exactly when the field was
modified. -/
theorem C6_no_rehash_unmodified (salt : Nat) (r : UserRec) :
    preSaveHook salt false r = r ∧
    (preSaveHook salt true r).password = bcryptHash salt r.password :=
  ⟨rfl, rfl⟩

/-- C9: the route authorization predicate — `/api/auth/callback`, `/` and
`/api/videos` are allowed for every token value including none, while
`/dashboard` is denied without a token and allowed with one. -/
theorem C9_authorization_predicate :
    (∀ t : Option String, authorized "/api/auth/callback" t = true) ∧
    (∀ t : Option String, authorized "/" t = true) ∧
    (∀ t : Option String, authorized "/api/videos" t = true) ∧
    authorized "/dashboard" none = false ∧
    (∀ s : String, authorized "/dashboard" (some s) = true) :=
  ⟨fun _ => rfl, fun _ => rfl, fun _ => rfl, rfl, fun _ => rfl⟩

/-- C4: the route matcher written in the middleware config fails to select
`/dashboard` — a path outside its declared excluded roots — because the
pattern ends in a stray space character, so the request never reaches the
authorization predicate. This evaluates the code at the failing input of
the claim. -/
theorem C4_matcher_skips_dashboard :
    matcherSelects "/dashboard" = false ∧
    excludedRoots.all (fun e => !(jsStartsWith (strTail "/dashboard") e)) = true ∧
    matcherSelects "/dashboard " = true := by
  refine ⟨by decide, by decide, by decide⟩

/-- C2: authentication is non-enumerating — for any store, authenticating
an existing email with a wrong password and authenticating a nonexistent
email both fail, and the externally visible error of the two runs is the
identical generic one, so a caller cannot tell the cases apart. -/
theorem C2_non_enumeration (st : Store) (salt : Nat) (u : UserRec)
    (e1 p wrong e2 q : String)
    (hfound : findOne st e1 = some u)
    (hpw : u.password = bcryptHash salt p)
    (hwne : ¬ (wrong = p))
    (he1 : ¬ (e1 = "")) (hw : ¬ (wrong = ""))
    (hmiss : findOne st e2 = none)
    (he2 : ¬ (e2 = "")) (hq : ¬ (q = "")) :
    authorize true st (some { email := some e1, password := some wrong }) =
      Except.error "Failed to log in" ∧
    authorize true st (some { email := some e2, password := some q }) =
      Except.error "Failed to log in" ∧
    authorize true st (some { email := some e1, password := some wrong }) =
      authorize true st (some { email := some e2, password := some q }) := by
  have hcmp : bcryptCompare wrong u.password = false := by
    rw [hpw]
    exact bcryptCompare_wrong salt p wrong hwne
  have h1 : authorize true st (some { email := some e1, password := some wrong }) =
      Except.error "Failed to log in" := by
    simp [authorize, authorizeTry, falsyField, Option.bind,
      beq_eq_false_iff_ne.mpr he1, beq_eq_false_iff_ne.mpr hw, hfound, hcmp]
  have h2 : authorize true st (some { email := some e2, password := some q }) =
      Except.error "Failed to log in" := by
    simp [authorize, authorizeTry, falsyField, Option.bind,
      beq_eq_false_iff_ne.mpr he2, beq_eq_false_iff_ne.mpr hq, hmiss]
  exact ⟨h1, h2, h1.trans h2.symm⟩

theorem C2_non_enumeration_witness :
    authorize true demoStore (some { email := some "a@b.c", password := some "nope" }) =
      Except.error "Failed to log in" ∧
    authorize true demoStore (some { email := some "x@y.z", password := some "pw" }) =
      Except.error "Failed to log in" := by
  obtain ⟨h1, h2, h3⟩ := C2_non_enumeration demoStore 3
    { _id := 1, email := "a@b.c", password := bcryptHash 3 "secret" }
    "a@b.c" "secret" "nope" "x@y.z" "pw"
    (by decide) rfl (by decide) (by decide) (by decide) (by decide) (by decide) (by decide)
  exact ⟨h1, h2⟩

/-- C3 counterexample: the missing/empty-credentials failure branch of
`authorize` is not surfaced as the generic login-failure error — on an
empty email it throws the distinct missing-credentials message, refuting
the claim that every failing branch collapses to the generic error. -/
theorem C3_counterexample :
    authorize true { users := [], nextId := 0 }
        (some { email := some "", password := some "pw" }) =
      Except.error "Missing email or password" ∧
    ¬ (authorize true { users := [], nextId := 0 }
        (some { email := some "", password := some "pw" }) =
      Except.error "Failed to log in") := by
  refine ⟨by decide, by decide⟩

/-- C3 amended: when either credential is missing or empty, `authorize`
fails with the distinct missing-credentials error, thrown before the
try/catch; when both credentials are present, every failing branch of the
flow — user not found, password mismatch, connection failure — is surfaced
as the single generic login-failure error. -/
theorem C3_uniform_failure (dbOk : Bool) (st : Store) (creds : Option Creds) :
    ((falsyField (creds.bind Creds.email) ||
        falsyField (creds.bind Creds.password)) = true →
      authorize dbOk st creds = Except.error "Missing email or password") ∧
    ((falsyField (creds.bind Creds.email) ||
        falsyField (creds.bind Creds.password)) = false →
      ∀ msg, authorize dbOk st creds = Except.error msg →
        msg = "Failed to log in") := by
  constructor
  · intro h
    simp [authorize, h]
  · intro h msg hmsg
    unfold authorize at hmsg
    rw [h] at hmsg
    simp only [Bool.false_eq_true, if_false] at hmsg
    cases htry : authorizeTry dbOk st ((creds.bind Creds.email).getD "")
        ((creds.bind Creds.password).getD "") with
    | ok v =>
      rw [htry] at hmsg
      exact absurd hmsg (fun hc => Except.noConfusion hc)
    | error msg2 =>
      rw [htry] at hmsg
      exact (Except.error.inj hmsg).symm

theorem C3_uniform_failure_witness :
    authorize true { users := [], nextId := 0 }
        (some { email := none, password := some "pw" }) =
      Except.error "Missing email or password" ∧
    ("Failed to log in" : String) = "Failed to log in" := by
  refine ⟨(C3_uniform_failure true { users := [], nextId := 0 }
    (some { email := none, password := some "pw" })).1 (by decide), ?_⟩
  exact (C3_uniform_failure true { users := [], nextId := 0 }
    (some { email := some "a", password := some "b" })).2 (by decide)
    "Failed to log in" (by decide)

/-- C7: plaintext is never persisted — a successful registration appends a
record whose stored password field is the salted hash of the supplied
plaintext and never the plaintext itself; and in general any write in which
the password field was set or changed stores its hash, which never equals
the field's prior plaintext value. -/
theorem C7_plaintext_never_persisted (salt : Nat) (st : Store) (e p : String)
    (he : ¬ (e = "")) (hp : ¬ (p = "")) (hfresh : findOne st e = none) :
    (POST salt true st { email := some e, password := some p }).1.users =
      st.users ++ [{ _id := st.nextId, email := e, password := bcryptHash salt p }] ∧
    ¬ (bcryptHash salt p = p) ∧
    (∀ r : UserRec, (preSaveHook salt true r).password = bcryptHash salt r.password ∧
      ¬ ((preSaveHook salt true r).password = r.password)) := by
  refine ⟨?_, bcryptHash_ne salt p, fun r => ⟨rfl, ?_⟩⟩
  · simp [POST, falsyField, Option.bind, beq_eq_false_iff_ne.mpr he,
      beq_eq_false_iff_ne.mpr hp, hfresh, createUser, preSaveHook]
  · show ¬ (bcryptHash salt r.password = r.password)
    exact bcryptHash_ne salt r.password

theorem C7_plaintext_never_persisted_witness :
    (POST 0 true { users := [], nextId := 0 }
        { email := some "a@b.c", password := some "pw" }).1.users =
      [{ _id := 0, email := "a@b.c", password := bcryptHash 0 "pw" }] ∧
    ¬ (bcryptHash 0 "pw" = "pw") := by
  obtain ⟨h1, h2, h3⟩ := C7_plaintext_never_persisted 0 { users := [], nextId := 0 }
    "a@b.c" "pw" (by decide) (by decide) (by decide)
  exact ⟨h1, h2⟩

/-- C8: successful authentication returns a minimal identity — for a stored
record whose password field is the correct hash of plaintext `p`, calling
`authorize` with that email and `p` succeeds and returns exactly the
record's id and email; the `Identity` type carries no password field, so
the hash is never part of the result. -/
theorem C8_minimal_identity (st : Store) (salt : Nat) (u : UserRec)
    (e p : String)
    (he : ¬ (e = "")) (hp : ¬ (p = ""))
    (hfound : findOne st e = some u)
    (hpw : u.password = bcryptHash salt p) :
    authorize true st (some { email := some e, password := some p }) =
      Except.ok { id := u._id, email := u.email } := by
  have hcmp : bcryptCompare p u.password = true := by
    rw [hpw]
    exact bcryptCompare_hash salt p
  simp [authorize, authorizeTry, falsyField, Option.bind,
    beq_eq_false_iff_ne.mpr he, beq_eq_false_iff_ne.mpr hp, hfound, hcmp]

theorem C8_minimal_identity_witness :
    authorize true demoStore (some { email := some "a@b.c", password := some "secret" }) =
      Except.ok { id := 1, email := "a@b.c" } :=
  C8_minimal_identity demoStore 3
    { _id := 1, email := "a@b.c", password := bcryptHash 3 "secret" }
    "a@b.c" "secret" (by decide) (by decide) (by decide) rfl

/-- C10: registration conflict handling — a well-formed registration whose
email already exists answers 400 with the conflict error and leaves the
store untouched; a fresh email creates the user and answers 201; and in
every case other than a 201 answer the stored user set is unchanged. -/
theorem C10_registration_conflict (salt : Nat) (st : Store) (e p : String)
    (he : ¬ (e = "")) (hp : ¬ (p = "")) :
    (∀ u : UserRec, findOne st e = some u →
      POST salt true st { email := some e, password := some p } =
        (st, { status := 400, body := Body.errB "Email already exists" })) ∧
    (findOne st e = none →
      POST salt true st { email := some e, password := some p } =
        (createUser salt st e p,
         { status := 201, body := Body.msgB "User registered successfully" })) ∧
    (∀ (dbOk : Bool) (st2 : Store) (req : RegReq),
      ¬ ((POST salt dbOk st2 req).2.status = 201) →
        (POST salt dbOk st2 req).1 = st2) := by
  refine ⟨?_, ?_, ?_⟩
  · intro u hu
    simp [POST, falsyField, Option.bind, beq_eq_false_iff_ne.mpr he,
      beq_eq_false_iff_ne.mpr hp, hu]
  · intro hmiss
    simp [POST, falsyField, Option.bind, beq_eq_false_iff_ne.mpr he,
      beq_eq_false_iff_ne.mpr hp, hmiss]
  · intro dbOk st2 req hne
    cases hval : (falsyField req.email || falsyField req.password) with
    | true => simp [POST, hval]
    | false =>
      cases dbOk with
      | false => simp [POST, hval]
      | true =>
        cases hfind : findOne st2 (req.email.getD "") with
        | some u => simp [POST, hval, hfind]
        | none =>
          exfalso
          apply hne
          simp [POST, hval, hfind]

theorem C10_registration_conflict_witness :
    POST 3 true demoStore { email := some "a@b.c", password := some "pp" } =
      (demoStore, { status := 400, body := Body.errB "Email already exists" }) ∧
    POST 3 true demoStore { email := some "n@e.w", password := some "pp" } =
      (createUser 3 demoStore "n@e.w" "pp",
       { status := 201, body := Body.msgB "User registered successfully" }) := by
  obtain ⟨h1, h2, h3⟩ := C10_registration_conflict 3 demoStore "a@b.c" "pp"
    (by decide) (by decide)
  obtain ⟨g1, g2, g3⟩ := C10_registration_conflict 3 demoStore "n@e.w" "pp"
    (by decide) (by decide)
  exact ⟨h1 { _id := 1, email := "a@b.c", password := bcryptHash 3 "secret" }
    (by decide), g2 (by decide)⟩
